import Mathlib

/-!
# truffle-config.js

A shallow embedding of `src/truffle-config.js`, the Truffle configuration module of the
repository, and the properties of the object it exports.

The module is an object literal with one arrow function in it. JavaScript values are
modelled by `JSValue`; the mutable surroundings of the module (the table `process.env`
and the constructor invocations made so far) by `World`, which is passed explicitly.
The libraries the module loads are not part of the repository: the wallet provider
constructor and the effect of `dotenv` on `process.env` are parameters, and the unit
conversion of `web3` is modelled after the library: a string amount in, a decimal string
out.
-/

namespace TruffleConfig

/-! ## JavaScript values -/

/-- Primitive JavaScript values occurring in the module. -/
inductive Prim where
  | undefined
  | bool (b : Bool)
  | num (n : Int)
  | str (s : String)
deriving DecidableEq, Repr

/-- One evaluation of a `new C(args)` expression: the constructor and the arguments it got. -/
structure Invocation where
  ctor : String
  args : List Prim
deriving DecidableEq, Repr

/-- The mutable surroundings of the module: `process.env` (a variable that is not set reads
as `none`) and the constructor invocations performed so far, oldest first. -/
structure World where
  env : String → Option String
  constructed : List Invocation

/-- JavaScript values. An object literal is the list of its properties in source order; a
function value carries its number of formal parameters and its effect when called. -/
inductive JSValue where
  | prim (p : Prim)
  | arr (items : List JSValue)
  | obj (fields : List (String × JSValue))
  | fn (arity : Nat) (call : World → Except String JSValue × World)

/-- Own property names of an object, in order (`Object.keys`). -/
def JSValue.keys : JSValue → List String
  | .obj fields => fields.map Prod.fst
  | _ => []

/-- Property read `v.key` (`none` stands for a missing property). -/
def JSValue.get (v : JSValue) (key : String) : Option JSValue :=
  match v with
  | .obj fields => fields.lookup key
  | _ => none

/-- Chained property read `v.k1.k2...`. -/
def JSValue.path (v : JSValue) : List String → Option JSValue
  | [] => some v
  | k :: ks => (v.get k).bind fun v1 => v1.path ks

/-- Call of a value with no arguments: a function runs its body, anything else is a
`TypeError`. -/
def JSValue.invoke : JSValue → World → Except String JSValue × World
  | .fn _ call, w => call w
  | _, w => (.error "TypeError: not a function", w)

/-- Number of formal parameters of a function value (`f.length`). -/
def JSValue.arity? : JSValue → Option Nat
  | .fn arity _ => some arity
  | _ => none

/-- The data of a value: the value with every function replaced by a mark that keeps only
its number of parameters. -/
inductive Data where
  | prim (p : Prim)
  | arr (items : List Data)
  | obj (fields : List (String × Data))
  | fn (arity : Nat)

mutual
/-- Data view of a value. -/
def JSValue.data : JSValue → Data
  | .prim p => .prim p
  | .arr items => .arr (dataOfItems items)
  | .obj fields => .obj (dataOfFields fields)
  | .fn arity _ => .fn arity
/-- Data view of the elements of an array. -/
def dataOfItems : List JSValue → List Data
  | [] => []
  | v :: vs => v.data :: dataOfItems vs
/-- Data view of the properties of an object. -/
def dataOfFields : List (String × JSValue) → List (String × Data)
  | [] => []
  | (k, v) :: fs => (k, v.data) :: dataOfFields fs
end

mutual
/-- Every string held as data anywhere in a value (property names are not data, and the
body of a function holds none). -/
def JSValue.strings : JSValue → List String
  | .prim (.str s) => [s]
  | .prim _ => []
  | .arr items => stringsOfItems items
  | .obj fields => stringsOfFields fields
  | .fn _ _ => []
/-- Strings held by the elements of an array. -/
def stringsOfItems : List JSValue → List String
  | [] => []
  | v :: vs => v.strings ++ stringsOfItems vs
/-- Strings held by the properties of an object. -/
def stringsOfFields : List (String × JSValue) → List String
  | [] => []
  | (_, v) :: fs => v.strings ++ stringsOfFields fs
end

/-! ## The environment -/

/-- Property read `process.env.NAME`: the string when the variable is set, `undefined`
otherwise. -/
def processEnv (w : World) (name : String) : Prim :=
  match w.env name with
  | some s => .str s
  | none => .undefined

/-- Number of invocations of the constructor `HDWalletProvider` recorded in a world. -/
def hdWalletInvocations (w : World) : Nat :=
  (w.constructed.filter fun i => i.ctor = "HDWalletProvider").length

/-! ## The unit conversion of web3 -/

/-- Value of a decimal digit. -/
def digit? (c : Char) : Option Nat :=
  if '0' ≤ c ∧ c ≤ '9' then some (c.toNat - '0'.toNat) else none

/-- Value of a non-empty string of decimal digits. -/
def parseDecimal : List Char → Option Nat
  | [] => none
  | cs => cs.foldlM (fun acc c => (digit? c).map fun d => 10 * acc + d) 0

/-- Modelled from the spec: `unitMap`, the table of denominations of `ethjs-unit`, on which
`web3.utils` rests and which is not under `src/`. Each unit is given by the decimal string
of its value in wei, the smallest currency unit: the gwei is `10^9` wei, which is `10⁻⁹`
of the base currency unit, the ether. -/
def unitMap : List (String × String) := [
  ("noether", "0"),
  ("wei", "1"),
  ("kwei", "1000"),
  ("Kwei", "1000"),
  ("babbage", "1000"),
  ("femtoether", "1000"),
  ("mwei", "1000000"),
  ("Mwei", "1000000"),
  ("lovelace", "1000000"),
  ("picoether", "1000000"),
  ("gwei", "1000000000"),
  ("Gwei", "1000000000"),
  ("shannon", "1000000000"),
  ("nanoether", "1000000000"),
  ("nano", "1000000000"),
  ("szabo", "1000000000000"),
  ("microether", "1000000000000"),
  ("micro", "1000000000000"),
  ("finney", "1000000000000000"),
  ("milliether", "1000000000000000"),
  ("milli", "1000000000000000"),
  ("ether", "1000000000000000000"),
  ("kether", "1000000000000000000000"),
  ("grand", "1000000000000000000000"),
  ("mether", "1000000000000000000000000"),
  ("gether", "1000000000000000000000000000"),
  ("tether", "1000000000000000000000000000000")]

/-- Modelled from the spec: `getUnitValue` of `web3.utils`, not under `src/`. The unit name
is lower-cased (ASCII letters), an empty name stands for the ether, and a name that is
not in the table is an error. -/
def getUnitValue (unit : String) : Except String String :=
  let unit := if unit = "" then "ether" else String.mk (unit.toList.map Char.toLower)
  match unitMap.lookup unit with
  | some _ => .ok unit
  | none => .error "This unit does not exist"

/-- Modelled from the spec: `numberToString` of `ethjs-unit`, not under `src/`, on a string
argument: the string is accepted when it matches `^-?[0-9.]+$`. -/
def numberToString (arg : String) : Except String String :=
  let body := match arg.toList with
    | '-' :: rest => rest
    | cs => cs
  if body ≠ [] ∧ body.all (fun c => c.isDigit || c == '.') = true then .ok arg
  else .error "while converting number to string, invalid number value"

/-- Modelled from the spec: `toWei` of `ethjs-unit`, not under `src/`. The amount is split at
the decimal point into a whole and a fractional part, the fractional part is padded with
zeros to the number of decimals of the unit (more decimals than that are an error, so
nothing is ever rounded), and the result is whole * unit + fraction, negated for a
negative amount. -/
def ethjsToWei (etherInput unit : String) : Except String Int := do
  let ether ← numberToString etherInput
  let unitValue ← match unitMap.lookup unit with
    | some v => pure v
    | none => throw "the unit provided does not exist"
  let base ← match parseDecimal unitValue.toList with
    | some b => pure b
    | none => throw "the unit provided does not exist"
  let baseLength := if unitValue.length - 1 = 0 then 1 else unitValue.length - 1
  let negative := ether.toList.head? = some '-'
  let ether := if negative then ether.toList.drop 1 else ether.toList
  if ether = ['.'] then throw "invalid value"
  let comps := ether.splitOn '.'
  if comps.length > 2 then throw "too many decimal points"
  let whole := comps.headD []
  let fraction := (comps.drop 1).headD []
  let whole := if whole = [] then ['0'] else whole
  let fraction := if fraction = [] then ['0'] else fraction
  if fraction.length > baseLength then throw "too many decimal places"
  let fraction := fraction ++ List.replicate (baseLength - fraction.length) '0'
  match parseDecimal whole, parseDecimal fraction with
  | some w, some f =>
    let wei : Int := (w * base + f : Nat)
    pure (if negative then -wei else wei)
  | _, _ => throw "invalid number value"

/-- Modelled from the spec: `web3.utils.toWei`, a function of the web3 library, which is not
under `src/`. It converts a human-readable amount in a named unit to its integer
representation in the smallest currency unit. For an amount given as a string, as on
line 44, the library returns that integer as a decimal string, and so does the model. -/
def toWei (number unit : String) : Except String String := do
  let unit ← getUnitValue unit
  let wei ← ethjsToWei number unit
  pure (toString wei)

/-! ## The module -/

/-- Line 42, the arrow function
`() => new HDWalletProvider(process.env.GOV_FUND_DEPLOYER, process.env.INFURA_ENDPOINT_MAINNET)`.
The constructor is the export of `@truffle/hdwallet-provider` and is a parameter: it
returns an instance or throws. The two arguments are read from `process.env` when the
function is called. -/
def provider (HDWalletProvider : List Prim → Except String JSValue) (w : World) :
    Except String JSValue × World :=
  let args := [processEnv w "GOV_FUND_DEPLOYER", processEnv w "INFURA_ENDPOINT_MAINNET"]
  (HDWalletProvider args,
    { w with constructed := w.constructed ++ [⟨"HDWalletProvider", args⟩] })

/-- Lines 27 to 71, the object literal assigned to `module.exports`. -/
def moduleExports (HDWalletProvider : List Prim → Except String JSValue) :
    Except String JSValue := do
  pure (.obj [
    ("contracts_build_directory", .prim (.str "./client/src/contracts_eth")),
    ("networks", .obj [
      ("mainnet", .obj [
        ("provider", .fn 0 (provider HDWalletProvider)),
        ("network_id", .prim (.str "1")),
        ("gasPrice", .prim (.str (← toWei "120" "gwei"))),
        ("skipDryRun", .prim (.bool true))])]),
    ("mocha", .obj [
      ("enableTimeouts", .prim (.bool false))]),
    ("compilers", .obj [
      ("solc", .obj [
        ("version", .prim (.str "0.7.5")),
        ("settings", .obj [
          ("optimizer", .obj [
            ("enabled", .prim (.bool true)),
            ("runs", .prim (.num 1000))])])])]),
    ("plugins", .arr [
      .prim (.str "truffle-plugin-verify")]),
    ("api_keys", .obj [])])

/-- Evaluation of the whole module, lines 21 to 71, in a world: `require('dotenv').config()`
acts on `process.env` (its effect is the parameter `dotenvConfig`), `new Web3()` is one
constructor invocation, and the object literal is built. The result is the exported
object and the world left behind. -/
def loadModule (dotenvConfig : (String → Option String) → (String → Option String))
    (HDWalletProvider : List Prim → Except String JSValue) (w : World) :
    Except String (JSValue × World) := do
  let w1 : World := { w with env := dotenvConfig w.env }
  let w2 : World := { w1 with constructed := w1.constructed ++ [⟨"Web3", []⟩] }
  let exports ← moduleExports HDWalletProvider
  pure (exports, w2)

/-! ## Observations -/

/-- The world after `n` successive calls of a function value. -/
def callTimes (f : JSValue) : Nat → World → World
  | 0, w => w
  | n + 1, w => callTimes f n (f.invoke w).2

/-- The constructor invocations performed by one call of a function value in a world. -/
def invocationsBy (f : JSValue) (w : World) : List Invocation :=
  (f.invoke w).2.constructed.drop w.constructed.length

/-- The dot-separated components of a version string, each read as a decimal number
(`none` for a component that is not one, such as a component carrying a range operator). -/
def versionNumbers (s : String) : List (Option Nat) :=
  (s.toList.splitOn '.').map parseDecimal

/-- An environment in which both variables read by the provider factory are set. -/
def sampleEnv : String → Option String
  | "GOV_FUND_DEPLOYER" => some "legal winner thank year wave sausage worth useful legal winner thank yellow"
  | "INFURA_ENDPOINT_MAINNET" => some "https://mainnet.infura.io/v3/0123456789abcdef"
  | "HOME" => some "/home/deployer"
  | _ => none

/-- A world with `sampleEnv` and no constructor invocation yet. -/
def sampleWorld : World := World.mk sampleEnv []

/-- A world in which no environment variable is set. -/
def emptyWorld : World := World.mk (fun _ => none) []

/-- A wallet provider constructor that rejects anything but two strings. -/
def sampleHDWalletProvider : List Prim → Except String JSValue
  | [.str mnemonic, .str url] => .ok (.obj [("mnemonic", .prim (.str mnemonic)), ("url", .prim (.str url))])
  | _ => .error "HDWalletProvider: invalid arguments"

/-- A world that agrees with `sampleWorld` on the two variables read by the provider factory
and differs from it on other variables and in the invocations already made. -/
def otherWorld : World :=
  World.mk
    (fun name => if name = "HOME" then some "/root" else
      if name = "ETHERSCAN_KEY" then some "abc" else sampleEnv name)
    [Invocation.mk "Web3" []]

/-! ## Properties -/

/-- A property is present on an object exactly when its name is one of the keys. -/
theorem get_isSome_iff_mem_keys (fields : List (String × JSValue)) (k : String) :
    ((JSValue.obj fields).get k).isSome = true ↔ k ∈ (JSValue.obj fields).keys := by
  induction fields with
  | nil => simp [JSValue.get, JSValue.keys, List.lookup]
  | cons f fs ih =>
    obtain ⟨k1, v1⟩ := f
    simp only [JSValue.get, JSValue.keys, List.lookup, List.map_cons, List.mem_cons] at ih ⊢
    by_cases h : k = k1
    · subst h
      simp
    · have hb : (k == k1) = false := by simpa using h
      simp [hb, h, ih]

/-- C1, as stated, fails: in the object exported in `sampleWorld` the value of
`networks.mainnet.gasPrice` is not an integer, whatever the integer. -/
theorem gasPrice_integer_counterexample :
    ¬ ∃ cfg w1 n, loadModule id sampleHDWalletProvider sampleWorld = .ok (cfg, w1) ∧
      cfg.path ["networks", "mainnet", "gasPrice"] = some (.prim (.num n)) := by
  rintro ⟨cfg, w1, n, h, h2⟩
  obtain ⟨cfg0, w0, h0, hs⟩ : ∃ cfg0 w0,
      loadModule id sampleHDWalletProvider sampleWorld = .ok (cfg0, w0) ∧
      cfg0.path ["networks", "mainnet", "gasPrice"] = some (.prim (.str "120000000000")) :=
    ⟨_, World.mk (id sampleWorld.env) (sampleWorld.constructed ++ [Invocation.mk "Web3" []]),
      rfl, rfl⟩
  rw [h0] at h
  injection h with h
  injection h with hc _
  subst hc
  rw [hs] at h2
  simp at h2

/-- C1, amended. For every environment the module loads and `networks.mainnet.gasPrice`,
computed as `toWei("120", "gwei")`, is the decimal string "120000000000": a string, not a
number, and the decimal numeral of the integer 120 * 10^9 = 120000000000, the number of
wei in 120 gwei, where one gwei is 10^9 wei and 10^9 gwei are the 10^18 wei of one
ether. -/
theorem gasPrice_is_120_gwei (dotenvConfig : (String → Option String) → (String → Option String))
    (HDWalletProvider : List Prim → Except String JSValue) (w : World) :
    ∃ cfg w1, loadModule dotenvConfig HDWalletProvider w = .ok (cfg, w1) ∧
      cfg.path ["networks", "mainnet", "gasPrice"] = some (.prim (.str "120000000000")) ∧
      (∀ n, cfg.path ["networks", "mainnet", "gasPrice"] ≠ some (.prim (.num n))) ∧
      toWei "120" "gwei" = .ok "120000000000" ∧
      parseDecimal "120000000000".toList = some (120 * 10 ^ 9) ∧
      (unitMap.lookup "gwei").bind (fun s => parseDecimal s.toList) = some (10 ^ 9) ∧
      (unitMap.lookup "ether").bind (fun s => parseDecimal s.toList) = some (10 ^ 9 * 10 ^ 9) := by
  refine ⟨_, World.mk (dotenvConfig w.env) (w.constructed ++ [Invocation.mk "Web3" []]),
    rfl, rfl, ?_, rfl, rfl, rfl, rfl⟩
  intro n h
  change some (JSValue.prim (Prim.str "120000000000")) = some (JSValue.prim (Prim.num n)) at h
  simp at h

/-- C2. For every environment the exported object has exactly the six top-level keys
`contracts_build_directory`, `networks`, `mocha`, `compilers`, `plugins` and `api_keys`:
these are its keys, without repetition, and a property is present exactly when its name
is one of the six. -/
theorem exports_top_level_keys (dotenvConfig : (String → Option String) → (String → Option String))
    (HDWalletProvider : List Prim → Except String JSValue) (w : World) :
    ∃ cfg w1, loadModule dotenvConfig HDWalletProvider w = .ok (cfg, w1) ∧
      cfg.keys = ["contracts_build_directory", "networks", "mocha", "compilers", "plugins",
        "api_keys"] ∧
      cfg.keys.Nodup ∧
      cfg.keys.length = 6 ∧
      ∀ k, (cfg.get k).isSome = true ↔
        k ∈ ["contracts_build_directory", "networks", "mocha", "compilers", "plugins",
          "api_keys"] := by
  refine ⟨_, World.mk (dotenvConfig w.env) (w.constructed ++ [Invocation.mk "Web3" []]),
    rfl, rfl, ?_, rfl, ?_⟩
  · show List.Nodup ["contracts_build_directory", "networks", "mocha", "compilers", "plugins",
      "api_keys"]
    decide
  · intro k
    exact get_isSome_iff_mem_keys _ k

/-- C3. Provider construction is lazy. Loading the module in any world performs the single
invocation `new Web3()` and no invocation of `HDWalletProvider`; `networks.mainnet.provider`
is a function of zero parameters; one call of it, in any world, performs exactly one
invocation of `HDWalletProvider`, and `n` calls perform exactly `n`. -/
theorem provider_is_lazy (dotenvConfig : (String → Option String) → (String → Option String))
    (HDWalletProvider : List Prim → Except String JSValue) (w : World) :
    ∃ cfg w1 p, loadModule dotenvConfig HDWalletProvider w = .ok (cfg, w1) ∧
      w1.constructed = w.constructed ++ [Invocation.mk "Web3" []] ∧
      hdWalletInvocations w1 = hdWalletInvocations w ∧
      cfg.path ["networks", "mainnet", "provider"] = some p ∧
      p.arity? = some 0 ∧
      (∀ v, ∃ args, invocationsBy p v = [Invocation.mk "HDWalletProvider" args]) ∧
      (∀ v, hdWalletInvocations (p.invoke v).2 = hdWalletInvocations v + 1) ∧
      (∀ n v, hdWalletInvocations (callTimes p n v) = hdWalletInvocations v + n) := by
  refine ⟨_, World.mk (dotenvConfig w.env) (w.constructed ++ [Invocation.mk "Web3" []]),
    JSValue.fn 0 (provider HDWalletProvider), rfl, rfl, ?_, rfl, rfl, ?_, ?_, ?_⟩
  · simp [hdWalletInvocations, List.filter_append]
  · intro v
    exact ⟨[processEnv v "GOV_FUND_DEPLOYER", processEnv v "INFURA_ENDPOINT_MAINNET"],
      by simp [invocationsBy, JSValue.invoke, provider]⟩
  · intro v
    simp [hdWalletInvocations, JSValue.invoke, provider, List.filter_append]
  · intro n
    induction n with
    | zero => intro v; rfl
    | succ n ih =>
      intro v
      rw [callTimes, ih]
      simp [hdWalletInvocations, JSValue.invoke, provider, List.filter_append]
      omega

/-- C4. Whatever world the module was loaded in, a call of `networks.mainnet.provider` in a
world `v` invokes `HDWalletProvider` once with exactly two arguments, `process.env`
read in `v` at `GOV_FUND_DEPLOYER` first and at `INFURA_ENDPOINT_MAINNET` second; a variable
that is set is passed as its own string; the result of the call is the result of the
constructor on these arguments and `process.env` is left as it was; and a world that
agrees with `v` on these two variables gives the same invocation, whatever its other
variables are. -/
theorem provider_arguments (dotenvConfig : (String → Option String) → (String → Option String))
    (HDWalletProvider : List Prim → Except String JSValue) (w v v2 : World)
    (hKey : v2.env "GOV_FUND_DEPLOYER" = v.env "GOV_FUND_DEPLOYER")
    (hUrl : v2.env "INFURA_ENDPOINT_MAINNET" = v.env "INFURA_ENDPOINT_MAINNET") :
    ∃ cfg w1 p, loadModule dotenvConfig HDWalletProvider w = .ok (cfg, w1) ∧
      cfg.path ["networks", "mainnet", "provider"] = some p ∧
      invocationsBy p v = [Invocation.mk "HDWalletProvider"
        [processEnv v "GOV_FUND_DEPLOYER", processEnv v "INFURA_ENDPOINT_MAINNET"]] ∧
      (p.invoke v).1 = HDWalletProvider
        [processEnv v "GOV_FUND_DEPLOYER", processEnv v "INFURA_ENDPOINT_MAINNET"] ∧
      (p.invoke v).2.env = v.env ∧
      (∀ key url, v.env "GOV_FUND_DEPLOYER" = some key →
        v.env "INFURA_ENDPOINT_MAINNET" = some url →
        invocationsBy p v = [Invocation.mk "HDWalletProvider" [.str key, .str url]]) ∧
      invocationsBy p v2 = invocationsBy p v := by
  refine ⟨_, World.mk (dotenvConfig w.env) (w.constructed ++ [Invocation.mk "Web3" []]),
    JSValue.fn 0 (provider HDWalletProvider), rfl, rfl, ?_, rfl, rfl, ?_, ?_⟩
  · simp [invocationsBy, JSValue.invoke, provider]
  · intro key url h1 h2
    simp [invocationsBy, JSValue.invoke, provider, processEnv, h1, h2]
  · simp [invocationsBy, JSValue.invoke, provider, processEnv, hKey, hUrl]

/-- Witness of C4: the module loaded in the empty world, the factory called in `sampleWorld`
and in `otherWorld`, which agree on the two variables only. -/
theorem provider_arguments_witness :
    otherWorld.env "GOV_FUND_DEPLOYER" = sampleWorld.env "GOV_FUND_DEPLOYER" ∧
    otherWorld.env "INFURA_ENDPOINT_MAINNET" = sampleWorld.env "INFURA_ENDPOINT_MAINNET" ∧
    otherWorld.env "HOME" ≠ sampleWorld.env "HOME" ∧
    ∃ p, invocationsBy p sampleWorld = [Invocation.mk "HDWalletProvider"
        [.str "legal winner thank year wave sausage worth useful legal winner thank yellow",
         .str "https://mainnet.infura.io/v3/0123456789abcdef"]] ∧
      invocationsBy p otherWorld = invocationsBy p sampleWorld := by
  refine ⟨rfl, rfl, by decide, ?_⟩
  obtain ⟨_, _, p, _, _, _, _, _, h6, h7⟩ :=
    provider_arguments id sampleHDWalletProvider emptyWorld sampleWorld otherWorld rfl rfl
  exact ⟨p, h6 _ _ rfl rfl, h7⟩

/-- C5. The module validates nothing and raises no error of its own. It loads in every
world, whatever is set in `process.env`; the result of a call of the provider factory is
the result of the constructor, error or not, on the two values read; and a variable that
is not set is handed to the constructor as `undefined`. -/
theorem no_validation (dotenvConfig : (String → Option String) → (String → Option String))
    (HDWalletProvider : List Prim → Except String JSValue) (w v : World) :
    ∃ cfg w1 p, loadModule dotenvConfig HDWalletProvider w = .ok (cfg, w1) ∧
      cfg.path ["networks", "mainnet", "provider"] = some p ∧
      (p.invoke v).1 = HDWalletProvider
        [processEnv v "GOV_FUND_DEPLOYER", processEnv v "INFURA_ENDPOINT_MAINNET"] ∧
      (v.env "GOV_FUND_DEPLOYER" = none →
        invocationsBy p v = [Invocation.mk "HDWalletProvider"
          [.undefined, processEnv v "INFURA_ENDPOINT_MAINNET"]]) ∧
      (v.env "INFURA_ENDPOINT_MAINNET" = none →
        invocationsBy p v = [Invocation.mk "HDWalletProvider"
          [processEnv v "GOV_FUND_DEPLOYER", .undefined]]) ∧
      (v.env "GOV_FUND_DEPLOYER" = none → v.env "INFURA_ENDPOINT_MAINNET" = none →
        invocationsBy p v = [Invocation.mk "HDWalletProvider" [.undefined, .undefined]] ∧
        (p.invoke v).1 = HDWalletProvider [.undefined, .undefined]) := by
  refine ⟨_, World.mk (dotenvConfig w.env) (w.constructed ++ [Invocation.mk "Web3" []]),
    JSValue.fn 0 (provider HDWalletProvider), rfl, rfl, rfl, ?_, ?_, ?_⟩
  · intro h1
    simp [invocationsBy, JSValue.invoke, provider, processEnv, h1]
  · intro h2
    simp [invocationsBy, JSValue.invoke, provider, processEnv, h2]
  · intro h1 h2
    simp [invocationsBy, JSValue.invoke, provider, processEnv, h1, h2]

/-- Witness of C5: in the empty world the module loads, the factory passes `undefined` twice
and the error it returns is the one of the constructor. -/
theorem no_validation_witness :
    emptyWorld.env "GOV_FUND_DEPLOYER" = none ∧
    emptyWorld.env "INFURA_ENDPOINT_MAINNET" = none ∧
    ∃ cfg w1 p, loadModule id sampleHDWalletProvider emptyWorld = .ok (cfg, w1) ∧
      cfg.path ["networks", "mainnet", "provider"] = some p ∧
      invocationsBy p emptyWorld = [Invocation.mk "HDWalletProvider" [.undefined, .undefined]] ∧
      (p.invoke emptyWorld).1 = .error "HDWalletProvider: invalid arguments" := by
  refine ⟨rfl, rfl, ?_⟩
  obtain ⟨cfg, w1, p, h1, h2, _, _, _, h6⟩ :=
    no_validation id sampleHDWalletProvider emptyWorld emptyWorld
  exact ⟨cfg, w1, p, h1, h2, (h6 rfl rfl).1, (h6 rfl rfl).2⟩

/-- C6, as stated, fails: in the object exported in `sampleWorld` the value of
`networks.mainnet.network_id` is not the number 1. -/
theorem network_id_number_counterexample :
    ¬ ∃ cfg w1, loadModule id sampleHDWalletProvider sampleWorld = .ok (cfg, w1) ∧
      cfg.path ["networks", "mainnet", "network_id"] = some (.prim (.num 1)) := by
  rintro ⟨cfg, w1, h, h2⟩
  obtain ⟨cfg0, w0, h0, hs⟩ : ∃ cfg0 w0,
      loadModule id sampleHDWalletProvider sampleWorld = .ok (cfg0, w0) ∧
      cfg0.path ["networks", "mainnet", "network_id"] = some (.prim (.str "1")) :=
    ⟨_, World.mk (id sampleWorld.env) (sampleWorld.constructed ++ [Invocation.mk "Web3" []]),
      rfl, rfl⟩
  rw [h0] at h
  injection h with h
  injection h with hc _
  subst hc
  rw [hs] at h2
  simp at h2

/-- C6, amended. For every environment `networks.mainnet.network_id` is the string "1": a
string, not a number, and the decimal numeral of the number 1. -/
theorem network_id_is_string_one
    (dotenvConfig : (String → Option String) → (String → Option String))
    (HDWalletProvider : List Prim → Except String JSValue) (w : World) :
    ∃ cfg w1, loadModule dotenvConfig HDWalletProvider w = .ok (cfg, w1) ∧
      cfg.path ["networks", "mainnet", "network_id"] = some (.prim (.str "1")) ∧
      cfg.path ["networks", "mainnet", "network_id"] ≠ some (.prim (.num 1)) ∧
      parseDecimal "1".toList = some 1 := by
  refine ⟨_, World.mk (dotenvConfig w.env) (w.constructed ++ [Invocation.mk "Web3" []]),
    rfl, rfl, ?_, rfl⟩
  intro h
  change some (JSValue.prim (Prim.str "1")) = some (JSValue.prim (Prim.num 1)) at h
  simp at h

/-- C7. For every environment the compiler configuration is pinned: `compilers` has the
single entry `solc`; `compilers.solc.version` is the string "0.7.5", three decimal numbers
separated by dots with no range operator; and `compilers.solc.settings.optimizer` is the
record with the boolean `enabled` = true and the integer `runs` = 1000, and nothing else. -/
theorem compiler_is_pinned (dotenvConfig : (String → Option String) → (String → Option String))
    (HDWalletProvider : List Prim → Except String JSValue) (w : World) :
    ∃ cfg w1, loadModule dotenvConfig HDWalletProvider w = .ok (cfg, w1) ∧
      (cfg.path ["compilers"]).map JSValue.keys = some ["solc"] ∧
      (cfg.path ["compilers", "solc"]).map JSValue.keys = some ["version", "settings"] ∧
      cfg.path ["compilers", "solc", "version"] = some (.prim (.str "0.7.5")) ∧
      versionNumbers "0.7.5" = [some 0, some 7, some 5] ∧
      (cfg.path ["compilers", "solc", "settings"]).map JSValue.keys = some ["optimizer"] ∧
      cfg.path ["compilers", "solc", "settings", "optimizer"] =
        some (.obj [("enabled", .prim (.bool true)), ("runs", .prim (.num 1000))]) := by
  exact ⟨_, World.mk (dotenvConfig w.env) (w.constructed ++ [Invocation.mk "Web3" []]),
    rfl, rfl, rfl, rfl, rfl, rfl, rfl⟩

/-- C8. For every environment `networks.mainnet.skipDryRun` is the boolean true and
`mocha.enableTimeouts` is the boolean false. -/
theorem flags_switch_steps_off (dotenvConfig : (String → Option String) → (String → Option String))
    (HDWalletProvider : List Prim → Except String JSValue) (w : World) :
    ∃ cfg w1, loadModule dotenvConfig HDWalletProvider w = .ok (cfg, w1) ∧
      cfg.path ["networks", "mainnet", "skipDryRun"] = some (.prim (.bool true)) ∧
      cfg.path ["mocha", "enableTimeouts"] = some (.prim (.bool false)) := by
  exact ⟨_, World.mk (dotenvConfig w.env) (w.constructed ++ [Invocation.mk "Web3" []]),
    rfl, rfl, rfl⟩

/-- C9. The exported object does not depend on the environment. Loaded in any two worlds,
with any two effects of `dotenv`, the module exports the same object; its data, every field
but the body of `networks.mainnet.provider`, is the constant written out below, where
`networks` has the single entry `mainnet`; the strings it holds are the four string
literals of the source and the gas price, so no field carries a value read from
`process.env`; and the two
variables are read only by a call of the provider factory, which passes them to the
constructor. -/
theorem exports_independent_of_environment
    (HDWalletProvider : List Prim → Except String JSValue)
    (dotenvConfig1 dotenvConfig2 : (String → Option String) → (String → Option String))
    (w1 w2 : World) :
    ∃ cfg v1 v2 p, loadModule dotenvConfig1 HDWalletProvider w1 = .ok (cfg, v1) ∧
      loadModule dotenvConfig2 HDWalletProvider w2 = .ok (cfg, v2) ∧
      cfg.data = .obj [
        ("contracts_build_directory", .prim (.str "./client/src/contracts_eth")),
        ("networks", .obj [
          ("mainnet", .obj [
            ("provider", .fn 0),
            ("network_id", .prim (.str "1")),
            ("gasPrice", .prim (.str "120000000000")),
            ("skipDryRun", .prim (.bool true))])]),
        ("mocha", .obj [("enableTimeouts", .prim (.bool false))]),
        ("compilers", .obj [
          ("solc", .obj [
            ("version", .prim (.str "0.7.5")),
            ("settings", .obj [
              ("optimizer", .obj [
                ("enabled", .prim (.bool true)),
                ("runs", .prim (.num 1000))])])])]),
        ("plugins", .arr [.prim (.str "truffle-plugin-verify")]),
        ("api_keys", .obj [])] ∧
      (cfg.path ["networks"]).map JSValue.keys = some ["mainnet"] ∧
      cfg.strings = ["./client/src/contracts_eth", "1", "120000000000", "0.7.5",
        "truffle-plugin-verify"] ∧
      cfg.path ["networks", "mainnet", "provider"] = some p ∧
      ∀ v, invocationsBy p v = [Invocation.mk "HDWalletProvider"
        [processEnv v "GOV_FUND_DEPLOYER", processEnv v "INFURA_ENDPOINT_MAINNET"]] := by
  refine ⟨_, World.mk (dotenvConfig1 w1.env) (w1.constructed ++ [Invocation.mk "Web3" []]),
    World.mk (dotenvConfig2 w2.env) (w2.constructed ++ [Invocation.mk "Web3" []]),
    JSValue.fn 0 (provider HDWalletProvider), rfl, rfl, rfl, rfl, rfl, rfl, ?_⟩
  intro v
  simp [invocationsBy, JSValue.invoke, provider]

end TruffleConfig
